import Mathlib

/-!
Shallow embedding of the `chocolate_road` exchange-connector core
(`src/exchange/mod.rs` and `src/exchange/bitmex.rs`).

Modelling conventions:
* Rust `f32` values that only undergo the small exact multiplications of the
  price decoder are modelled as exact rationals (`Rat`).
* Rust `u64` arithmetic is modelled on `Nat` with explicit wrap-around
  (`% 2 ^ 64`), matching release-mode two's-complement semantics.
* A Rust panic (`.expect`, `.unwrap`, `HashMap` indexing on a missing key)
  is modelled as an `Except.error (Panic.panic msg)` result, carrying the
  panic message of the source where it has one.
* External sinks (redis publish, tectonic) are modelled at their interface:
  a successful publish is recorded as a `(topic, payload)` pair.
-/

namespace ChocolateRoad

/-- Assets supported by the `exchange` module (`Asset` enum, mod.rs). -/
inductive Asset where
  | BTC
  | ETH
  | LTC
  | USDT
  | USDC
  | USD
  | JPY
  | CNY
  | KRW
  | EUR
  | GBP
  | CAD
  | AUD
deriving DecidableEq, Repr

/-- Supported venues (`Exchange` enum, mod.rs). -/
inductive Exchange where
  | Poloniex
  | GDAX
  | BitMEX
deriving DecidableEq, Repr

/-- `Exchange::market_first` (mod.rs lines 33-39). -/
def Exchange.market_first : Exchange → Bool
  | .Poloniex => true
  | .GDAX => false
  | .BitMEX => false

/-- `Exchange::asset_separator` (mod.rs lines 42-48). -/
def Exchange.asset_separator : Exchange → String
  | .Poloniex => "-"
  | .GDAX => "-"
  | .BitMEX => ""

/-- `Exchange::normalize_asset` (mod.rs lines 52-80): the venue spelling of
an asset, `none` meaning the asset is unsupported on that venue. -/
def Exchange.normalize_asset : Exchange → Asset → Option String
  | .Poloniex, .BTC => some "BTC"
  | .Poloniex, .ETH => some "ETH"
  | .Poloniex, .LTC => some "LTC"
  | .Poloniex, .USDT => some "USDT"
  | .Poloniex, _ => none
  | .GDAX, .BTC => some "BTC"
  | .GDAX, .ETH => some "ETH"
  | .GDAX, .LTC => some "LTC"
  | .GDAX, .USD => some "USD"
  | .GDAX, .USDC => some "USDC"
  | .GDAX, _ => none
  | .BitMEX, .BTC => some "XBT"
  | .BitMEX, .ETH => some "ETH"
  | .BitMEX, .LTC => some "LTC"
  | .BitMEX, .USD => some "USD"
  | .BitMEX, _ => none

/-- A Rust panic, carrying the panic message. -/
inductive Panic where
  | panic (msg : String)
deriving DecidableEq, Repr

/-- `get_asset_pair` (mod.rs lines 175-194). The source builds the pair string
with `push_str` and aborts through `.expect("Asset 1 not found")` /
`.expect("Asset 0 not found")` when `normalize_asset` returns `None`; the
panic is modelled as an `Except.error`. Evaluation order of the two lookups
follows the source (in the `market_first` branch `assets[1]` is normalized
first). -/
def get_asset_pair (assets : Asset × Asset) (exch : Exchange) : Except Panic String :=
  match exch.market_first with
  | true =>
    match exch.normalize_asset assets.2 with
    | none => .error (.panic "Asset 1 not found")
    | some s1 =>
      match exch.normalize_asset assets.1 with
      | none => .error (.panic "Asset 0 not found")
      | some s0 => .ok (s1 ++ exch.asset_separator ++ s0)
  | false =>
    match exch.normalize_asset assets.1 with
    | none => .error (.panic "Asset 0 not found")
    | some s0 =>
      match exch.normalize_asset assets.2 with
      | none => .error (.panic "Asset 1 not found")
      | some s1 => .ok (s0 ++ exch.asset_separator ++ s1)

/-- Modelled from the spec: the `orderbook` module (not under `src/`) defines
bit-flag constants for the side of book; the `Delta.event` field is the
bitwise xor of a side flag and a kind flag. The exact numeric values are not
observable through any claim; distinct powers of two are used. Bid side. -/
def BID : Nat := 1

/-- Modelled from the spec: ask-side flag of the `orderbook` module. -/
def ASK : Nat := 2

/-- Modelled from the spec: trade-event flag of the `orderbook` module. -/
def TRADE : Nat := 4

/-- Modelled from the spec: book-update-event flag of the `orderbook`
module. -/
def UPDATE : Nat := 8

/-- Modelled from the spec: `orderbook::Delta` (module not under `src/`), the
normalized output unit — symbol string, decoded price, size, sequence number,
event bit-flags, receipt timestamp. Prices, sizes and timestamps are `f32`/
`f64` in the source, modelled as exact rationals. -/
structure Delta where
  symbol : String
  price : Rat
  size : Rat
  seq : Nat
  event : Nat
  ts : Rat
deriving DecidableEq, Repr

/-- `BitMEXData` (bitmex.rs lines 116-128): one per-update record of an
inbound frame. `id` is `Option<u64>`, modelled as an optional `Nat`. -/
structure BitMEXData where
  symbol : String
  side : String
  id : Option Nat
  size : Option Rat
  price : Option Rat
deriving DecidableEq, Repr

/-- `BitMEXMessage` (bitmex.rs lines 105-113): one inbound frame — a table
(channel) name, an action tag and a list of update records. -/
structure BitMEXMessage where
  table : String
  action : String
  data : List BitMEXData
deriving DecidableEq, Repr

/-- The shared runtime tables of `WSExchangeSender` (bitmex.rs lines 77-79):
`asset_indexes : HashMap<String, u64>` and
`asset_tick_size : HashMap<String, f32>`, modelled as partial maps. -/
structure RuntimeTables where
  asset_indexes : String → Option Nat
  asset_tick_size : String → Option Rat

/-- The `u64` modulus. -/
def u64 : Nat := 2 ^ 64

/-- Wrapping `u64` subtraction `a - b` (release-mode semantics). -/
def u64sub (a b : Nat) : Nat := (a % u64 + (u64 - b % u64)) % u64

/-- Wrapping `u64` multiplication. -/
def u64mul (a b : Nat) : Nat := a * b % u64

/-- The per-update body of the decode loop in `on_message` (bitmex.rs lines
293-335). An update with no id is skipped (`.ok none`). A symbol equal to
`"XBTUSD"` takes the hard-coded path `price = (8800000000 - id) as f32 *
0.01`. Any other symbol is looked up in `asset_indexes` and
`asset_tick_size`; indexing a `HashMap` on a missing key panics in Rust, so
a missing entry yields an `Except.error`. A missing size defaults to `0.0`. -/
def decodeUpdate (tables : RuntimeTables) (action : String) (ts : Rat)
    (update : BitMEXData) : Except Panic (Option Delta) :=
  match update.id with
  | none => .ok none
  | some id =>
    let is_bid : Nat := if update.side = "Buy" then BID else ASK
    let is_trade : Nat := if action = "Trade" then TRADE else UPDATE
    if update.symbol = "XBTUSD" then
      .ok (some
        { symbol := "XBTUSD"
          price := (u64sub 8800000000 id : Rat) * (1 / 100)
          size := update.size.getD 0
          seq := 0
          event := is_bid ^^^ is_trade
          ts := ts })
    else
      match tables.asset_indexes update.symbol with
      | none => .error (.panic "asset index lookup failed")
      | some idx =>
        match tables.asset_tick_size update.symbol with
        | none => .error (.panic "tick size lookup failed")
        | some tick =>
          .ok (some
            { symbol := update.symbol
              price := (u64sub (u64mul 100000000 idx) id : Rat) * tick
              size := update.size.getD 0
              seq := 0
              event := is_bid ^^^ is_trade
              ts := ts })

/-- The decode loop of `on_message` (bitmex.rs lines 293-336): updates are
decoded in order and pushed into `deltas`; a panic anywhere aborts the whole
loop (the spawned thread dies). -/
def decodeLoop (tables : RuntimeTables) (action : String) (ts : Rat) :
    List BitMEXData → Except Panic (List Delta)
  | [] => .ok []
  | update :: rest =>
    match decodeUpdate tables action ts update with
    | .error e => .error e
    | .ok none => decodeLoop tables action ts rest
    | .ok (some d) =>
      match decodeLoop tables action ts rest with
      | .error e => .error e
      | .ok ds => .ok (d :: ds)

/-- Outcome of the spawned per-message decode thread: either it finished,
having performed the listed pub/sub publishes (topic with payload), or it
panicked with a message. -/
inductive ThreadOutcome where
  | finished (publishes : List (String × List Delta))
  | panicked (msg : String)
deriving DecidableEq, Repr

/-- The body of the thread spawned by `on_message` (bitmex.rs lines 282-351).
`parsed` is the result of `serde_json::from_slice::<BitMEXMessage>`; `none`
models a frame that fails to parse (the `Err` arm logs and returns). The
source tests `message.table` — not `message.action` — against `""` and
`"partial"` before decoding (line 286). On a successful decode the whole
batch is published as one message to the `"bitmex"` topic (lines 339-343),
even when `deltas` is empty. -/
def threadBody (tables : RuntimeTables) (parsed : Option BitMEXMessage)
    (ts : Rat) : ThreadOutcome :=
  match parsed with
  | none => .finished []
  | some message =>
    if message.table = "" ∨ message.table = "partial" then
      .finished []
    else
      match decodeLoop tables message.action ts message.data with
      | .error (.panic m) => .panicked m
      | .ok deltas => .finished [("bitmex", deltas)]

/-- `on_message` (bitmex.rs lines 276-354): spawns the decode thread and
unconditionally returns `Ok(())` to the websocket library, so the session
stays open whatever the thread does. The pair collects the spawned thread's
outcome and the handler's return value. -/
def on_message (tables : RuntimeTables) (parsed : Option BitMEXMessage)
    (ts : Rat) : ThreadOutcome × Except String Unit :=
  (threadBody tables parsed ts, .ok ())

/-- True when the spawned decode thread died with a panic. -/
def ThreadOutcome.didPanic : ThreadOutcome → Bool
  | .panicked _ => true
  | .finished _ => false

/-- Empty runtime tables: the state before the on-open REST fetch has
populated anything. -/
def sampleEmptyTables : RuntimeTables :=
  { asset_indexes := fun _ => none
    asset_tick_size := fun _ => none }

/-- Runtime tables holding one registered symbol, `"ETHUSD"`, with index `7`
and tick size `0.5`, as the on-open instrument fetch would record them. -/
def sampleEthTables : RuntimeTables :=
  { asset_indexes := fun s => if s = "ETHUSD" then some 7 else none
    asset_tick_size := fun s => if s = "ETHUSD" then some (1 / 2) else none }

end ChocolateRoad

namespace ChocolateRoad

/-- C8: a frame that fails to parse as `BitMEXMessage` is discarded whole —
no `Delta`, no publish — and `on_message` still returns `Ok(())`, leaving
the session open. -/
theorem C8_malformed_frame_discarded (tables : RuntimeTables) (ts : Rat) :
    on_message tables none ts = (.finished [], .ok ()) := rfl

/-- C7: when both assets of the pair are supported on the venue,
`get_asset_pair` emits `normalize(b) + sep + normalize(a)` when the venue is
market-first, and `normalize(a) + sep + normalize(b)` otherwise. -/
theorem C7_market_ordering (exch : Exchange) (a b : Asset) (sa sb : String)
    (ha : exch.normalize_asset a = some sa)
    (hb : exch.normalize_asset b = some sb) :
    get_asset_pair (a, b) exch =
      .ok (if exch.market_first then sb ++ exch.asset_separator ++ sa
           else sa ++ exch.asset_separator ++ sb) := by
  cases hmf : exch.market_first <;> simp [get_asset_pair, hmf, ha, hb]

/-- C7 witness: Poloniex is market-first; the (BTC, USDT) pair formats as
the concrete instance of the ordering rule. -/
theorem C7_market_ordering_witness :
    get_asset_pair (Asset.BTC, Asset.USDT) Exchange.Poloniex =
      .ok (if Exchange.Poloniex.market_first
           then "USDT" ++ Exchange.Poloniex.asset_separator ++ "BTC"
           else "BTC" ++ Exchange.Poloniex.asset_separator ++ "USDT") :=
  C7_market_ordering Exchange.Poloniex Asset.BTC Asset.USDT "BTC" "USDT" rfl rfl

/-- C3 counterexample: formatting the (USDT, USD) pair on BitMEX — USDT is
absent from BitMEX's mapping — does not produce an `UnsupportedAsset` error
value: the source has no such value and aborts through
`.expect("Asset 0 not found")`, i.e. it panics. -/
theorem C3_counterexample :
    get_asset_pair (Asset.USDT, Asset.USD) Exchange.BitMEX =
      .error (.panic "Asset 0 not found") := rfl

/-- C3 amended: formatting a pair containing an asset the venue does not
support panics with an `Asset … not found` message (there is no
`UnsupportedAsset` error value to return); no string, malformed or
otherwise, is ever returned for such a pair. -/
theorem C3_unsupported_asset_panics (assets : Asset × Asset) (exch : Exchange)
    (h : exch.normalize_asset assets.1 = none ∨
         exch.normalize_asset assets.2 = none) :
    get_asset_pair assets exch = .error (.panic "Asset 0 not found") ∨
    get_asset_pair assets exch = .error (.panic "Asset 1 not found") := by
  cases hmf : exch.market_first with
  | true =>
    cases h2 : exch.normalize_asset assets.2 with
    | none => right; simp [get_asset_pair, hmf, h2]
    | some s1 =>
      have h1 : exch.normalize_asset assets.1 = none := by
        rcases h with h | h
        · exact h
        · rw [h] at h2; cases h2
      left; simp [get_asset_pair, hmf, h1, h2]
  | false =>
    cases h1 : exch.normalize_asset assets.1 with
    | none => left; simp [get_asset_pair, hmf, h1]
    | some s0 =>
      have h2 : exch.normalize_asset assets.2 = none := by
        rcases h with h | h
        · rw [h] at h1; cases h1
        · exact h
      right; simp [get_asset_pair, hmf, h1, h2]

/-- C3 witness: the amended statement instantiated at the (USDT, USD) pair
on BitMEX. -/
theorem C3_unsupported_asset_panics_witness :
    get_asset_pair (Asset.USDT, Asset.USD) Exchange.BitMEX =
      .error (.panic "Asset 0 not found") ∨
    get_asset_pair (Asset.USDT, Asset.USD) Exchange.BitMEX =
      .error (.panic "Asset 1 not found") :=
  C3_unsupported_asset_panics (Asset.USDT, Asset.USD) Exchange.BitMEX
    (Or.inl rfl)

/-- C1: code-bug evaluation. The source (bitmex.rs line 286) tests
`message.table` against `""` and `"partial"`, not `message.action`, although
the `action` field is the one documented (line 110) as telling snapshot from
delta and the comment above the test says it skips snapshots. Hence a
snapshot frame with `action = "partial"` and `table = "orderBookL2"` is
processed: it produces one `Delta` and one publish, where the claim requires
zero of each. -/
theorem C1_snapshot_frame_is_processed :
    threadBody sampleEmptyTables
      (some { table := "orderBookL2", action := "partial",
              data := [{ symbol := "XBTUSD", side := "Buy",
                         id := some 8799999877, size := some 10,
                         price := none }] }) 0 =
      .finished [("bitmex",
        [{ symbol := "XBTUSD", price := 123 * (1 / 100), size := 10, seq := 0,
           event := BID ^^^ UPDATE, ts := 0 }])] := rfl

/-- C4: decoding an update for a registered non-reference symbol with
`index = 7`, `tick = 0.5` and `raw_id = 100000000 * 7 - 42` yields
`price = 42 * 0.5`, the instance of
`price = (100000000 * index - raw_id) * tick_size`. -/
theorem C4_generic_symbol_decode (tables : RuntimeTables) (S side : String)
    (ts : Rat) (sz : Option Rat)
    (hS : S ≠ "XBTUSD")
    (hidx : tables.asset_indexes S = some 7)
    (htick : tables.asset_tick_size S = some (1 / 2)) :
    decodeUpdate tables "update" ts
      { symbol := S, side := side, id := some (100000000 * 7 - 42),
        size := sz, price := none } =
      .ok (some { symbol := S, price := 42 * (1 / 2), size := sz.getD 0,
                  seq := 0,
                  event := (if side = "Buy" then BID else ASK) ^^^ UPDATE,
                  ts := ts }) := by
  have h42 : u64sub (u64mul 100000000 7) (100000000 * 7 - 42) = 42 := by decide
  simp [decodeUpdate, hS, hidx, htick, h42]

/-- C4 witness: the generic decode rule instantiated on the concrete table
that registers `"ETHUSD"` with index 7 and tick size 0.5. -/
theorem C4_generic_symbol_decode_witness :
    decodeUpdate sampleEthTables "update" 0
      { symbol := "ETHUSD", side := "Buy", id := some (100000000 * 7 - 42),
        size := some 5, price := none } =
      .ok (some { symbol := "ETHUSD", price := 42 * (1 / 2),
                  size := (some (5 : Rat)).getD 0, seq := 0,
                  event := (if "Buy" = "Buy" then BID else ASK) ^^^ UPDATE,
                  ts := 0 }) :=
  C4_generic_symbol_decode sampleEthTables "ETHUSD" "Buy" 0 (some 5)
    (by decide) rfl rfl

/-- C5: decoding `raw_id = 8800000000 - 123` for the reference symbol
`"XBTUSD"` yields `price = 123 * 0.01` through the hard-coded offset
`8800000000` and tick `0.01`; the statement is quantified over arbitrary
runtime tables, so the table lookup plays no part. -/
theorem C5_reference_symbol_decode (tables : RuntimeTables) (ts : Rat) :
    decodeUpdate tables "update" ts
      { symbol := "XBTUSD", side := "Sell", id := some (8800000000 - 123),
        size := some 1, price := none } =
      .ok (some { symbol := "XBTUSD", price := 123 * (1 / 100), size := 1,
                  seq := 0, event := ASK ^^^ UPDATE, ts := ts }) := by
  have h123 : u64sub 8800000000 (8800000000 - 123) = 123 := by decide
  simp [decodeUpdate, h123]

/-- C10: the default tracked pair (BTC, USD) formats on BitMEX to exactly
`"XBTUSD"` (BTC aliased to XBT, empty separator, asset before market), the
very literal the decoder compares against; consequently any update carrying
that symbol decodes through the fixed-offset path — the result is
independent of the runtime tables and follows the hard-coded
`(8800000000 - id) * 0.01` formula. -/
theorem C10_default_pair_takes_reference_path :
    get_asset_pair (Asset.BTC, Asset.USD) Exchange.BitMEX = .ok "XBTUSD" ∧
    ∀ (tables tables' : RuntimeTables) (action : String) (ts : Rat)
      (u : BitMEXData), u.symbol = "XBTUSD" →
      decodeUpdate tables action ts u = decodeUpdate tables' action ts u ∧
      ∀ i, u.id = some i →
        decodeUpdate tables action ts u =
          .ok (some { symbol := "XBTUSD",
                      price := (u64sub 8800000000 i : Rat) * (1 / 100),
                      size := u.size.getD 0, seq := 0,
                      event := (if u.side = "Buy" then BID else ASK) ^^^
                               (if action = "Trade" then TRADE else UPDATE),
                      ts := ts }) := by
  refine ⟨rfl, ?_⟩
  intro tables tables' action ts u hsym
  constructor
  · cases hid : u.id with
    | none => simp [decodeUpdate, hid]
    | some i => simp [decodeUpdate, hid, hsym]
  · intro i hid
    simp [decodeUpdate, hid, hsym]

/-- C10 witness: the reference-path consequence instantiated at a concrete
trade update for `"XBTUSD"`, evaluated against two different tables. -/
theorem C10_default_pair_takes_reference_path_witness :
    decodeUpdate sampleEmptyTables "Trade" 0
        { symbol := "XBTUSD", side := "Buy", id := some 8799999877,
          size := none, price := none } =
      decodeUpdate sampleEthTables "Trade" 0
        { symbol := "XBTUSD", side := "Buy", id := some 8799999877,
          size := none, price := none } ∧
    decodeUpdate sampleEmptyTables "Trade" 0
        { symbol := "XBTUSD", side := "Buy", id := some 8799999877,
          size := none, price := none } =
      .ok (some { symbol := "XBTUSD",
                  price := (u64sub 8800000000 8799999877 : Rat) * (1 / 100),
                  size := (none : Option Rat).getD 0, seq := 0,
                  event := (if "Buy" = "Buy" then BID else ASK) ^^^
                           (if "Trade" = "Trade" then TRADE else UPDATE),
                  ts := 0 }) :=
  ⟨(C10_default_pair_takes_reference_path.2 sampleEmptyTables sampleEthTables
      "Trade" 0 _ rfl).1,
   (C10_default_pair_takes_reference_path.2 sampleEmptyTables sampleEthTables
      "Trade" 0 _ rfl).2 8799999877 rfl⟩

/-- Helper: an update with no id decodes to `.ok none` — the loop skips it. -/
theorem decodeUpdate_noId (tables : RuntimeTables) (action : String) (ts : Rat)
    (u : BitMEXData) (hid : u.id = none) :
    decodeUpdate tables action ts u = .ok none := by
  simp [decodeUpdate, hid]

/-- Helper: removing an id-less update from anywhere in a batch leaves the
decode loop's result unchanged. -/
theorem decodeLoop_drop_noId (tables : RuntimeTables) (action : String)
    (ts : Rat) (u : BitMEXData) (hid : u.id = none) (post : List BitMEXData)
    (pre : List BitMEXData) :
    decodeLoop tables action ts (pre ++ u :: post) =
      decodeLoop tables action ts (pre ++ post) := by
  induction pre with
  | nil =>
    simp [decodeLoop, decodeUpdate_noId tables action ts u hid]
  | cons p ps ih =>
    simp only [List.cons_append, decodeLoop, List.append_eq]
    rw [ih]

/-- C6: an update whose id field is absent produces no `Delta` and does not
disturb the processing of its sibling updates: the frame containing it
yields exactly the outcome of the frame without it. -/
theorem C6_no_id_update_dropped (tables : RuntimeTables)
    (table action : String) (ts : Rat) (pre post : List BitMEXData)
    (u : BitMEXData) (hid : u.id = none) :
    threadBody tables
        (some { table := table, action := action, data := pre ++ u :: post })
        ts =
      threadBody tables
        (some { table := table, action := action, data := pre ++ post })
        ts := by
  by_cases htab : table = "" ∨ table = "partial"
  · simp [threadBody, htab]
  · simp [threadBody, htab,
      decodeLoop_drop_noId tables action ts u hid post pre]

/-- C6 witness: a concrete three-update frame on the registered table — the
middle update has no id and the frame behaves exactly as the frame without
it. -/
theorem C6_no_id_update_dropped_witness :
    threadBody sampleEthTables
        (some { table := "orderBookL2", action := "update",
                data := [{ symbol := "ETHUSD", side := "Buy",
                           id := some (100000000 * 7 - 42), size := some 5,
                           price := none }] ++
                  { symbol := "ETHUSD", side := "Sell", id := none,
                    size := some 9, price := none } ::
                  [{ symbol := "XBTUSD", side := "Sell",
                     id := some 8799999877, size := some 2,
                     price := none }] }) 0 =
      threadBody sampleEthTables
        (some { table := "orderBookL2", action := "update",
                data := [{ symbol := "ETHUSD", side := "Buy",
                           id := some (100000000 * 7 - 42), size := some 5,
                           price := none }] ++
                  [{ symbol := "XBTUSD", side := "Sell",
                     id := some 8799999877, size := some 2,
                     price := none }] }) 0 :=
  C6_no_id_update_dropped sampleEthTables "orderBookL2" "update" 0
    [{ symbol := "ETHUSD", side := "Buy", id := some (100000000 * 7 - 42),
       size := some 5, price := none }]
    [{ symbol := "XBTUSD", side := "Sell", id := some 8799999877,
       size := some 2, price := none }]
    { symbol := "ETHUSD", side := "Sell", id := none, size := some 9,
      price := none } rfl

/-- Helper: an update with an id, a non-reference symbol and no entry in the
index table makes `decodeUpdate` panic (the `HashMap` indexing aborts). -/
theorem decodeUpdate_unknown_symbol (tables : RuntimeTables) (action : String)
    (ts : Rat) (u : BitMEXData) (i : Nat) (hid : u.id = some i)
    (hsym : u.symbol ≠ "XBTUSD")
    (hidx : tables.asset_indexes u.symbol = none) :
    decodeUpdate tables action ts u =
      .error (.panic "asset index lookup failed") := by
  simp [decodeUpdate, hid, hsym, hidx]

/-- Helper: if some update in the tail `u :: post` part of a batch panics,
the whole decode loop over `pre ++ u :: post` ends in a panic, whatever
`pre` contains. -/
theorem decodeLoop_append_panics (tables : RuntimeTables) (action : String)
    (ts : Rat) (u : BitMEXData) (post : List BitMEXData)
    (hu : ∃ e, decodeUpdate tables action ts u = .error e) :
    ∀ pre : List BitMEXData,
      ∃ e, decodeLoop tables action ts (pre ++ u :: post) = .error e := by
  intro pre
  induction pre with
  | nil =>
    obtain ⟨e, he⟩ := hu
    exact ⟨e, by simp [decodeLoop, he]⟩
  | cons p ps ih =>
    obtain ⟨e, he⟩ := ih
    cases hdu : decodeUpdate tables action ts p with
    | error e0 => exact ⟨e0, by simp [decodeLoop, hdu]⟩
    | ok d? =>
      cases d? with
      | none => exact ⟨e, by simp [decodeLoop, hdu, he]⟩
      | some d => exact ⟨e, by simp [decodeLoop, hdu, he]⟩

/-- C2 counterexample: a batch holding one update for the registered symbol
`"ETHUSD"` followed by one for the unregistered symbol `"UNKNOWN"` does not
yield exactly one `Delta`: the `HashMap` indexing on the unknown symbol
panics, the decode thread dies before its single publish, and zero `Delta`
entries reach the sink. -/
theorem C2_counterexample :
    threadBody sampleEthTables
      (some { table := "orderBookL2", action := "update",
              data := [{ symbol := "ETHUSD", side := "Buy",
                         id := some (100000000 * 7 - 42), size := some 5,
                         price := none },
                       { symbol := "UNKNOWN", side := "Buy", id := some 1,
                         size := some 5, price := none }] }) 0 =
      .panicked "asset index lookup failed" := rfl

/-- C2 amended: a batch containing an update for an unregistered
non-reference symbol (with an id) makes the spawned decode task panic, so
the whole frame — including every sibling update's `Delta` — is lost and
nothing is published; the panic stays inside the spawned thread, and the
websocket handler still returns `Ok(())`, so the session continues. -/
theorem C2_unknown_symbol_aborts_frame (tables : RuntimeTables)
    (table action : String) (ts : Rat) (pre post : List BitMEXData)
    (u : BitMEXData) (i : Nat)
    (htab1 : table ≠ "") (htab2 : table ≠ "partial")
    (hid : u.id = some i) (hsym : u.symbol ≠ "XBTUSD")
    (hidx : tables.asset_indexes u.symbol = none) :
    (threadBody tables
        (some { table := table, action := action, data := pre ++ u :: post })
        ts).didPanic = true ∧
    (on_message tables
        (some { table := table, action := action, data := pre ++ u :: post })
        ts).2 = .ok () := by
  refine ⟨?_, rfl⟩
  obtain ⟨e, he⟩ := decodeLoop_append_panics tables action ts u post
    ⟨_, decodeUpdate_unknown_symbol tables action ts u i hid hsym hidx⟩ pre
  cases e with
  | panic m => simp [threadBody, htab1, htab2, he, ThreadOutcome.didPanic]

/-- C2 witness: the amended statement instantiated at the concrete
registered-plus-unregistered batch. -/
theorem C2_unknown_symbol_aborts_frame_witness :
    (threadBody sampleEthTables
        (some { table := "orderBookL2", action := "update",
                data := [{ symbol := "ETHUSD", side := "Buy",
                           id := some (100000000 * 7 - 42), size := some 5,
                           price := none }] ++
                  { symbol := "UNKNOWN", side := "Buy", id := some 1,
                    size := some 5, price := none } :: [] }) 0).didPanic =
      true ∧
    (on_message sampleEthTables
        (some { table := "orderBookL2", action := "update",
                data := [{ symbol := "ETHUSD", side := "Buy",
                           id := some (100000000 * 7 - 42), size := some 5,
                           price := none }] ++
                  { symbol := "UNKNOWN", side := "Buy", id := some 1,
                    size := some 5, price := none } :: [] }) 0).2 =
      .ok () :=
  C2_unknown_symbol_aborts_frame sampleEthTables "orderBookL2" "update" 0
    [{ symbol := "ETHUSD", side := "Buy", id := some (100000000 * 7 - 42),
       size := some 5, price := none }] []
    { symbol := "UNKNOWN", side := "Buy", id := some 1, size := some 5,
      price := none } 1
    (by decide) (by decide) rfl (by decide) rfl

/-- Helper: every `Delta` emitted by `decodeUpdate` carries exactly
`update.size.unwrap_or(0.0)` as its size, on both decode paths. -/
theorem decodeUpdate_size_eq (tables : RuntimeTables) (action : String)
    (ts : Rat) (u : BitMEXData) (d : Delta)
    (hdu : decodeUpdate tables action ts u = .ok (some d)) :
    d.size = u.size.getD 0 := by
  unfold decodeUpdate at hdu
  cases hid : u.id with
  | none => rw [hid] at hdu; cases hdu
  | some i =>
    rw [hid] at hdu
    by_cases hs : u.symbol = "XBTUSD"
    · simp only [hs, if_pos rfl] at hdu
      cases hdu
      rfl
    · simp only [if_neg hs] at hdu
      cases hidx : tables.asset_indexes u.symbol with
      | none => rw [hidx] at hdu; cases hdu
      | some idx =>
        rw [hidx] at hdu
        cases htick : tables.asset_tick_size u.symbol with
        | none => rw [htick] at hdu; cases hdu
        | some tick =>
          rw [htick] at hdu
          cases hdu
          rfl

/-- Helper: a successful decode loop over a batch whose present sizes are
all nonnegative emits only nonnegative sizes. -/
theorem decodeLoop_size_nonneg (tables : RuntimeTables) (action : String)
    (ts : Rat) (l : List BitMEXData) (ds : List Delta)
    (hsz : ∀ u ∈ l, 0 ≤ u.size.getD 0)
    (hloop : decodeLoop tables action ts l = .ok ds) :
    ∀ d ∈ ds, 0 ≤ d.size := by
  induction l generalizing ds with
  | nil =>
    cases hloop
    intro d hd
    cases hd
  | cons u rest ih =>
    unfold decodeLoop at hloop
    cases hdu : decodeUpdate tables action ts u with
    | error e => rw [hdu] at hloop; cases hloop
    | ok d? =>
      rw [hdu] at hloop
      cases d? with
      | none =>
        exact ih ds (fun v hv => hsz v (List.mem_cons_of_mem u hv)) hloop
      | some d0 =>
        cases hrest : decodeLoop tables action ts rest with
        | error e => rw [hrest] at hloop; cases hloop
        | ok ds0 =>
          rw [hrest] at hloop
          cases hloop
          intro d hd
          rcases List.mem_cons.mp hd with hd | hd
          · rw [hd, decodeUpdate_size_eq tables action ts u d0 hdu]
            exact hsz u (List.mem_cons_self u rest)
          · exact ih ds0 (fun v hv => hsz v (List.mem_cons_of_mem u hv))
              hrest d hd

/-- C9 counterexample: the source copies the wire size into the `Delta`
unchecked, so a frame whose update carries the (well-formed JSON) size `-1`
is published with `size = -1 < 0`, contradicting the claim for arbitrary
wire input. -/
theorem C9_counterexample :
    threadBody sampleEmptyTables
        (some { table := "orderBookL2", action := "update",
                data := [{ symbol := "XBTUSD", side := "Buy",
                           id := some 8799999877, size := some (-1),
                           price := none }] }) 0 =
      .finished [("bitmex",
        [{ symbol := "XBTUSD", price := 123 * (1 / 100), size := -1, seq := 0,
           event := BID ^^^ UPDATE, ts := 0 }])] ∧
    ((-1 : Rat) < 0) := ⟨rfl, by decide⟩

/-- C9 amended: an absent size defaults to zero and the emitted size is
otherwise copied verbatim from the wire, so every published `Delta` has
nonnegative size whenever every present wire size in the frame is
nonnegative; the code itself does not reject a negative wire size. -/
theorem C9_size_nonneg (tables : RuntimeTables) (msg : BitMEXMessage)
    (ts : Rat) (pubs : List (String × List Delta))
    (hsz : ∀ u ∈ msg.data, 0 ≤ u.size.getD 0)
    (hrun : threadBody tables (some msg) ts = .finished pubs) :
    ∀ p ∈ pubs, ∀ d ∈ p.2, 0 ≤ d.size := by
  simp only [threadBody] at hrun
  by_cases htab : msg.table = "" ∨ msg.table = "partial"
  · rw [if_pos htab] at hrun
    cases hrun
    intro p hp
    cases hp
  · rw [if_neg htab] at hrun
    cases hloop : decodeLoop tables msg.action ts msg.data with
    | error e =>
      rw [hloop] at hrun
      cases e with
      | panic m => cases hrun
    | ok deltas =>
      rw [hloop] at hrun
      cases hrun
      intro p hp
      rcases List.mem_cons.mp hp with hp | hp
      · rw [hp]
        exact decodeLoop_size_nonneg tables msg.action ts msg.data deltas
          hsz hloop
      · cases hp

/-- C9 witness: the amended nonnegativity applied to one concretely decoded
and published `Delta`. -/
theorem C9_size_nonneg_witness :
    (0 : Rat) ≤ (Delta.mk "XBTUSD" (123 * (1 / 100)) 10 0 (BID ^^^ UPDATE)
      0).size :=
  C9_size_nonneg sampleEmptyTables
    { table := "orderBookL2", action := "update",
      data := [{ symbol := "XBTUSD", side := "Buy", id := some 8799999877,
                 size := some 10, price := none }] } 0
    [("bitmex",
      [Delta.mk "XBTUSD" (123 * (1 / 100)) 10 0 (BID ^^^ UPDATE) 0])]
    (by intro u hu; rcases List.mem_singleton.mp hu with rfl; decide) rfl
    ("bitmex", [Delta.mk "XBTUSD" (123 * (1 / 100)) 10 0 (BID ^^^ UPDATE) 0])
    (List.mem_cons_self _ _)
    (Delta.mk "XBTUSD" (123 * (1 / 100)) 10 0 (BID ^^^ UPDATE) 0)
    (List.mem_cons_self _ _)

end ChocolateRoad
